import Mathlib

/-!
# Verification of `VideoTranscriber.py`

A shallow embedding of the `VideoTranscriber` class from
`src/VideoTranscriber.py` together with theorems checking the
natural-language specification against it.

Modelling conventions:

* Remote calls (Whisper transcription, LLM translation) are modelled by an
  oracle `Nat → Option String` giving, for each attempt counter value, either
  `some text` (the call succeeds with that text) or `none` (the call raises).
* `time.sleep` is not modelled: it has no effect on any value computed.
* The filesystem is a list of existing paths; side effects of
  `process_video` are recorded as an explicit event trace and as the final
  list of existing paths.
* Python exceptions become `Except`; a Python function that swallows an
  exception returns `Except.ok`.
* The `retry-after` HTTP header of an error object is modelled already
  parsed: `absent` (no `e.response.headers['retry-after']`), `unparseable`
  (present but `int()` raises `ValueError`/`TypeError`), or `parsed h`
  (present, `int()` returns `h`).
-/

namespace VideoTranscriber

/-! ## String helpers: Python `in` (substring) and `str.startswith` -/

/-- Python's substring test `sub in s`. -/
def pyContains (s sub : String) : Bool :=
  (List.range (s.toList.length + 1)).any (fun i => sub.toList.isPrefixOf (s.toList.drop i))

/-- Python's `s.startswith(pre)`. -/
def pyStartswith (s pre : String) : Bool :=
  pre.toList.isPrefixOf s.toList

/-- Last index of a character in a list (Python `str.rfind`). -/
def rfindIdx (c : Char) (cs : List Char) : Option Nat :=
  match cs.reverse.findIdx? (· = c) with
  | some j => some (cs.length - 1 - j)
  | none => none

/-- Split a character list on a separator character. -/
def splitChars (sep : Char) (cs : List Char) : List (List Char) :=
  match cs with
  | [] => [[]]
  | c :: rest =>
    let r := splitChars sep rest
    if c = sep then [] :: r
    else (c :: r.headD []) :: r.tail

/-- `pathlib.Path(p).stem`: the final path component (empty components from
repeated or trailing slashes dropped) without its last suffix; a leading or
trailing dot does not start a suffix. -/
def pathStem (p : String) : String :=
  let name := (((splitChars '/' p.toList).filter (fun s => s ≠ [])).getLast?).getD []
  match rfindIdx '.' name with
  | some i =>
    if 0 < i ∧ i + 1 < name.length then String.mk (name.take i) else String.mk name
  | none => String.mk name

/-! ## Retry loops (`transcribe_audio`, `translate_text`) -/

/-- The sentinel string returned by `transcribe_audio` on retry exhaustion
(line 167 of the source). -/
def transcribe_sentinel : String := "FALLO TRANSCRIBIENDO EN CANTIDAD DE INTENTOS"

/-- The sentinel string returned by `translate_text` on retry exhaustion
(line 207 of the source). -/
def translate_sentinel : String := "FALLO TRADUCIENDO EN CANTIDAD DE INTENTOS"

/-- The marker `process_video` searches for in the transcription result
(line 285 of the source: `"FALLO TRANSCRIBIENDO" in transcription`). -/
def transcribe_marker : String := "FALLO TRANSCRIBIENDO"

/-- `transcribe_audio(audio_path, intento)` (source lines 153-189).
`oracle intento` is the outcome of the remote Whisper call at that attempt:
`some text` on success, `none` when it raises.  Returns the produced string
together with the number of remote calls made.  The `time.sleep` between
attempts has no effect on the computed value and is not modelled. -/
def transcribe_audio (oracle : Nat → Option String) (audio_path : String)
    (intento : Nat) : String × Nat :=
  if _h : intento > 10 then (transcribe_sentinel, 0)
  else
    match oracle intento with
    | some text => (text, 1)
    | none =>
      let r := transcribe_audio oracle audio_path (intento + 1)
      (r.1, r.2 + 1)
termination_by 11 - intento
decreasing_by omega

/-- `translate_text(text, intento)` (source lines 193-226), with the remote
LLM call modelled by `oracle` the same way as in `transcribe_audio`. -/
def translate_text (oracle : Nat → Option String) (text : String)
    (intento : Nat) : String × Nat :=
  if _h : intento > 10 then (translate_sentinel, 0)
  else
    match oracle intento with
    | some translation => (translation, 1)
    | none =>
      let r := translate_text oracle text (intento + 1)
      (r.1, r.2 + 1)
termination_by 11 - intento
decreasing_by omega

/-- Call-count bound for `transcribe_audio`: starting at counter `j`, at most
`11 - j` remote calls are made. -/
theorem transcribe_audio_count_le (oracle : Nat → Option String)
    (audio_path : String) (j : Nat) :
    (transcribe_audio oracle audio_path j).2 ≤ 11 - j := by
  rw [transcribe_audio]
  split
  · simp
  · cases ho : oracle j with
    | some text => simp [ho]; omega
    | none =>
      have ih := transcribe_audio_count_le oracle audio_path (j + 1)
      simp only [ho]
      show (transcribe_audio oracle audio_path (j + 1)).2 + 1 ≤ 11 - j
      omega
termination_by 11 - j
decreasing_by omega

/-- Call-count bound for `translate_text`: starting at counter `j`, at most
`11 - j` remote calls are made. -/
theorem translate_text_count_le (oracle : Nat → Option String)
    (text : String) (j : Nat) :
    (translate_text oracle text j).2 ≤ 11 - j := by
  rw [translate_text]
  split
  · simp
  · cases ho : oracle j with
    | some t => simp [ho]; omega
    | none =>
      have ih := translate_text_count_le oracle text (j + 1)
      simp only [ho]
      show (translate_text oracle text (j + 1)).2 + 1 ≤ 11 - j
      omega
termination_by 11 - j
decreasing_by omega

/-! ## `_get_retry_time` (source lines 332-355) -/

/-- The `retry-after` header of the error's response, already parsed (see the
module conventions). -/
inductive RetryAfterHeader where
  | absent
  | unparseable
  | parsed (h : Int)
deriving Repr, DecidableEq

/-- `_get_retry_time(e)` (source lines 332-355): base 60 when no
`retry-after` header is present, `int(header) + 2` when it parses, 200 when
it does not; the call `random.uniform(0, 5)` is passed in as `jitter`. -/
def _get_retry_time (header : RetryAfterHeader) (jitter : ℚ) : ℚ :=
  let retry_after : Int :=
    match header with
    | .absent => 60
    | .parsed h => h + 2
    | .unparseable => 200
  (retry_after : ℚ) + jitter

/-! ## `save_text` (source lines 230-243) -/

inductive LogLevel where
  | info
  | error
deriving Repr, DecidableEq

structure LogEntry where
  level : LogLevel
  msg : String
deriving Repr, DecidableEq

/-- Outcome of the underlying `open(...,'w').write(text)` OS operation:
success, or an OS error (permissions, disk full, ...) with its message. -/
inductive WriteOutcome where
  | ok
  | failure (msg : String)
deriving Repr, DecidableEq

/-- A raised persistence error (what the spec calls `PersistError`). -/
inductive PersistError where
  | persistError (msg : String)
deriving Repr, DecidableEq

/-- `save_text(text, file_path)` (source lines 230-243).  The body is a
`try/except Exception` whose handler only logs, so the function returns
normally (`Except.ok ()`) in both cases; the produced log entries are the
second component. -/
def save_text (w : WriteOutcome) (text file_path : String) :
    Except PersistError Unit × List LogEntry :=
  match w with
  | .ok =>
    (Except.ok (), [⟨LogLevel.info, "Archivo guardado: " ++ file_path⟩])
  | .failure m =>
    (Except.ok (), [⟨LogLevel.error, "Error guardando archivo " ++ file_path ++ ": " ++ m⟩])

/-! ## `set_translation_prompt` (source lines 106-117) -/

/-- Mutable configuration of a `VideoTranscriber` instance. -/
structure TranscriberConfig where
  whisper_model : String
  translation_model : String
  translation_prompt : String
deriving Repr, DecidableEq

/-- A raised prompt-validation error (the `ValueError` of line 114; the spec
calls it `InvalidPromptError`). -/
inductive InvalidPromptError where
  | invalidPrompt (msg : String)
deriving Repr, DecidableEq

/-- `set_translation_prompt(prompt)` (source lines 106-117), in state-passing
style: returns the post-state together with the raised error, if any.  The
`raise` happens before the assignment, so on error the configuration is
returned untouched. -/
def set_translation_prompt (cfg : TranscriberConfig) (prompt : String) :
    TranscriberConfig × Option InvalidPromptError :=
  if pyContains prompt "{text}" then
    ({ cfg with translation_prompt := prompt }, none)
  else
    (cfg, some (InvalidPromptError.invalidPrompt
      "El prompt debe incluir {text} donde se insertará el texto a traducir"))

/-! ## `process_video` (source lines 247-328) -/

/-- The result dictionary built by `process_video` when `return_results` is
true: `translation` is `None` on the transcription short-circuit. -/
structure PResult where
  transcription : String
  translation : Option String
  video_path : String
deriving Repr, DecidableEq

/-- Filesystem / remote side effects of one `process_video` call, in
execution order. -/
inductive Event where
  | makedirs (p : String)
  | create_temp (p : String)
  | transcribe_call (audio : String)
  | translate_call (text : String)
  | write_file (p : String) (content : String)
  | delete_file (p : String)
deriving Repr, DecidableEq

/-- An exception escaping `process_video`. -/
inductive PyError where
  | fileNotFound (msg : String)
  | extraction (msg : String)
deriving Repr, DecidableEq

/-- The environment a `process_video` call runs in: which paths exist, what
`extract_audio` does (error message, or the temporary audio path it
creates), and the strings the two retry loops come back with.  The loop
results are inputs here because `transcribe_audio` / `translate_text` never
raise: they return either a real result or their sentinel (see lines
153-226). -/
structure Env where
  fs : List String
  extract_result : Except String String
  transcribe_result : String
  translate_result : String

/-- Outcome of `process_video`: the returned value (or raised exception),
the event trace, and the final list of existing paths. -/
structure PVOutcome where
  result : Except PyError (Option PResult)
  events : List Event
  fs : List String

/-- `process_video(video_path, results_path, save, return_results)` (source
lines 247-328).  Mirrors the source's control flow: existence check, then
`os.makedirs` when `save and results_path`, then `extract_audio` (whose
exception propagates), then the `try/finally` around transcription with the
`"FALLO TRANSCRIBIENDO" in transcription` short-circuit, translation, the
two `save_text` writes, and the guarded `os.unlink` of the temporary audio
file in the `finally` block.  `os.path.join` is modelled as
`dir ++ "/" ++ name`. -/
def process_video (env : Env) (video_path : String) (results_path : Option String)
    (save return_results : Bool) : PVOutcome :=
  if video_path ∈ env.fs then
    let fs1 : List String :=
      if save then
        match results_path with
        | some rp => rp :: env.fs
        | none => env.fs
      else env.fs
    let ev1 : List Event :=
      if save then
        match results_path with
        | some rp => [Event.makedirs rp]
        | none => []
      else []
    match env.extract_result with
    | Except.error m =>
      ⟨Except.error (PyError.extraction m), ev1, fs1⟩
    | Except.ok audio_path =>
      let fs2 := audio_path :: fs1
      let ev2 := ev1 ++ [Event.create_temp audio_path]
      let transcription := env.transcribe_result
      let ev3 := ev2 ++ [Event.transcribe_call audio_path]
      if pyContains transcription transcribe_marker then
        let fs4 := if audio_path ∈ fs2 then fs2.filter (fun p => p ≠ audio_path) else fs2
        let ev4 := ev3 ++ (if audio_path ∈ fs2 then [Event.delete_file audio_path] else [])
        if return_results then
          ⟨Except.ok (some ⟨transcription, none, video_path⟩), ev4, fs4⟩
        else
          ⟨Except.ok none, ev4, fs4⟩
      else
        let translation := env.translate_result
        let ev4 := ev3 ++ [Event.translate_call transcription]
        let video_filename := pathStem video_path
        let fs5 : List String :=
          if save then
            match results_path with
            | some rp =>
              (rp ++ "/" ++ video_filename ++ "_translation.txt") ::
                (rp ++ "/" ++ video_filename ++ "_transcription.txt") :: fs2
            | none => fs2
          else fs2
        let ev5 : List Event :=
          if save then
            match results_path with
            | some rp =>
              ev4 ++ [Event.write_file (rp ++ "/" ++ video_filename ++ "_transcription.txt") transcription,
                Event.write_file (rp ++ "/" ++ video_filename ++ "_translation.txt") translation]
            | none => ev4
          else ev4
        let fs6 := if audio_path ∈ fs5 then fs5.filter (fun p => p ≠ audio_path) else fs5
        let ev6 := ev5 ++ (if audio_path ∈ fs5 then [Event.delete_file audio_path] else [])
        if return_results then
          ⟨Except.ok (some ⟨transcription, some translation, video_path⟩), ev6, fs6⟩
        else
          ⟨Except.ok none, ev6, fs6⟩
  else
    ⟨Except.error (PyError.fileNotFound ("Archivo no encontrado: " ++ video_path)), [], env.fs⟩

/-- The success test the `__main__` batch loop applies to a returned result
dictionary (source line 524): the dictionary is truthy, its transcription is
truthy, and the transcription does not start with `'FALLO'`. -/
def cli_counts_success (resultado : Option PResult) : Bool :=
  match resultado with
  | none => false
  | some r => r.transcription != "" && !(pyStartswith r.transcription "FALLO")

/-! ## Sanity checks of the string helpers -/

example : pyContains "abcd" "bc" = true := by decide

example : pyContains "abcd" "ca" = false := by decide

example : pyContains transcribe_sentinel transcribe_marker = true := by decide

example : pyStartswith transcribe_sentinel "FALLO" = true := by decide

example : pathStem "videos/mi video.mp4" = "mi video" := by decide

example : pathStem "a/b.tar.gz" = "b.tar" := by decide

example : pathStem "a/.hidden" = ".hidden" := by decide

/-! ## Theorems for the claims -/

/-- **C1**: for every audio path and every text input, the retry loops of
`transcribe_audio` and `translate_text` invoke the underlying remote call at
most 11 times (attempt counter values 0 through 10); once the counter
exceeds 10 they return the fixed sentinel failure string without a further
call (zero calls from there), and both loops are total functions of the
attempt counter. -/
theorem retry_loops_bounded (oT oL : Nat → Option String) (audio_path text : String)
    (i : Nat) (h : i > 10) :
    (transcribe_audio oT audio_path 0).2 ≤ 11 ∧
    (translate_text oL text 0).2 ≤ 11 ∧
    transcribe_audio oT audio_path i = (transcribe_sentinel, 0) ∧
    translate_text oL text i = (translate_sentinel, 0) := by
  refine ⟨?_, ?_, ?_, ?_⟩
  · simpa using transcribe_audio_count_le oT audio_path 0
  · simpa using translate_text_count_le oL text 0
  · rw [transcribe_audio]; simp [h]
  · rw [translate_text]; simp [h]

/-- Witness for C1 at the always-failing oracle and counter value 11. -/
theorem retry_loops_bounded_witness :
    (transcribe_audio (fun _ => none) "audio.wav" 0).2 ≤ 11 ∧
    (translate_text (fun _ => none) "texto" 0).2 ≤ 11 ∧
    transcribe_audio (fun _ => none) "audio.wav" 11 = (transcribe_sentinel, 0) ∧
    translate_text (fun _ => none) "texto" 11 = (translate_sentinel, 0) :=
  retry_loops_bounded (fun _ => none) (fun _ => none) "audio.wav" "texto" 11 (by decide)

/-- **C2**: for every error signal, the computed retry wait is a base plus
the uniform jitter in `[0, 5)`: with no `retry-after` hint the result lies
in `[60, 65)`; with a hint parsing to the integer `h` it lies in
`[h+2, h+7)`; with an unparseable hint it lies in `[200, 205)`. -/
theorem retry_wait_intervals (h : Int) (jitter : ℚ)
    (hj0 : 0 ≤ jitter) (hj5 : jitter < 5) :
    (60 ≤ _get_retry_time .absent jitter ∧ _get_retry_time .absent jitter < 65) ∧
    ((h : ℚ) + 2 ≤ _get_retry_time (.parsed h) jitter ∧
      _get_retry_time (.parsed h) jitter < (h : ℚ) + 7) ∧
    (200 ≤ _get_retry_time .unparseable jitter ∧
      _get_retry_time .unparseable jitter < 205) := by
  unfold _get_retry_time
  push_cast
  refine ⟨⟨by linarith, by linarith⟩, ⟨by linarith, by linarith⟩, ⟨by linarith, by linarith⟩⟩

/-- Witness for C2 at hint 30 and jitter 1. -/
theorem retry_wait_intervals_witness :
    (60 ≤ _get_retry_time .absent 1 ∧ _get_retry_time .absent 1 < 65) ∧
    (((30 : Int) : ℚ) + 2 ≤ _get_retry_time (.parsed 30) 1 ∧
      _get_retry_time (.parsed 30) 1 < ((30 : Int) : ℚ) + 7) ∧
    (200 ≤ _get_retry_time .unparseable 1 ∧ _get_retry_time .unparseable 1 < 205) :=
  retry_wait_intervals 30 1 (by norm_num) (by norm_num)

/-- **C3, counterexample**: on a failing write (`Permission denied`),
`save_text` returns normally (`Except.ok ()`) — no `PersistError` is raised
to the caller, contradicting the claim that the failure is raised. -/
theorem save_text_failure_not_raised :
    (save_text (WriteOutcome.failure "Permission denied") "hola" "/out/x.txt").1 =
      Except.ok () := rfl

/-- **C3, amended**: on a write failure `save_text` logs the error but
swallows the exception: it returns normally with `Except.ok ()`, and the
only trace of the failure is the error log entry. -/
theorem save_text_failure_logged_swallowed (m text file_path : String) :
    save_text (WriteOutcome.failure m) text file_path =
      (Except.ok (),
        [⟨LogLevel.error, "Error guardando archivo " ++ file_path ++ ": " ++ m⟩]) := rfl

/-- **C5**: setting a translation prompt template that does not contain the
substitution marker fails with the prompt-validation error, and the
configuration — in particular the previously configured template — is
returned unchanged. -/
theorem set_prompt_invalid_unchanged (cfg : TranscriberConfig) (prompt : String)
    (hp : pyContains prompt "{text}" = false) :
    set_translation_prompt cfg prompt =
      (cfg, some (InvalidPromptError.invalidPrompt
        "El prompt debe incluir {text} donde se insertará el texto a traducir")) := by
  unfold set_translation_prompt
  simp [hp]

/-- Witness for C5 at a prompt without the marker. -/
theorem set_prompt_invalid_unchanged_witness :
    set_translation_prompt
        ⟨"whisper-large-v3", "openai/gpt-oss-120b", "viejo {text} prompt"⟩
        "prompt sin marcador" =
      (⟨"whisper-large-v3", "openai/gpt-oss-120b", "viejo {text} prompt"⟩,
        some (InvalidPromptError.invalidPrompt
          "El prompt debe incluir {text} donde se insertará el texto a traducir")) :=
  set_prompt_invalid_unchanged _ _ (by decide)

/-- Concrete environment: the video exists, extraction yields
`/tmp/a.wav`, and both remote pipelines succeed. -/
def env_ok : Env := ⟨["v.mp4"], Except.ok "/tmp/a.wav", "hello world", "hola mundo"⟩

/-- Concrete environment in which transcription comes back as the
exhaustion sentinel. -/
def env_sentinel : Env := ⟨["v.mp4"], Except.ok "/tmp/a.wav", transcribe_sentinel, "hola"⟩

/-- **C6**: for every path not on the filesystem, `process_video` raises
`FileNotFoundError` (the spec's `NotFoundError`) with an empty event trace
— no directory creation, no temporary file, no write — and the filesystem
unchanged. -/
theorem process_video_missing_path (env : Env) (video_path : String)
    (results_path : Option String) (save return_results : Bool)
    (hfs : video_path ∉ env.fs) :
    process_video env video_path results_path save return_results =
      ⟨Except.error (PyError.fileNotFound ("Archivo no encontrado: " ++ video_path)),
        [], env.fs⟩ := by
  unfold process_video
  simp [hfs]

/-- Witness for C6 on an empty filesystem. -/
theorem process_video_missing_path_witness :
    process_video ⟨[], Except.error "unused", "", ""⟩ "ghost.mp4" (some "res") true true =
      ⟨Except.error (PyError.fileNotFound "Archivo no encontrado: ghost.mp4"), [], []⟩ :=
  process_video_missing_path ⟨[], Except.error "unused", "", ""⟩ "ghost.mp4"
    (some "res") true true (by decide)

/-- **C4**: when transcription returns the failure sentinel,
`process_video` short-circuits: no translation call appears in the event
trace (for any flag combination), and with `return_results` the returned
record carries the sentinel as transcription and `translation = none`. -/
theorem process_video_short_circuit (env : Env) (video_path audio_path : String)
    (results_path : Option String) (save return_results : Bool)
    (hfs : video_path ∈ env.fs)
    (hex : env.extract_result = Except.ok audio_path)
    (hsent : env.transcribe_result = transcribe_sentinel) :
    (∀ t, Event.translate_call t ∉
      (process_video env video_path results_path save return_results).events) ∧
    (process_video env video_path results_path save true).result =
      Except.ok (some ⟨transcribe_sentinel, none, video_path⟩) := by
  have hmark : pyContains transcribe_sentinel transcribe_marker = true := by decide
  constructor
  · intro t
    unfold process_video
    rw [hex]
    simp only [hfs, if_true, hsent, hmark]
    cases save <;> cases results_path <;> cases return_results <;>
      simp [List.mem_append]
  · unfold process_video
    rw [hex]
    simp [hfs, hsent, hmark]

/-- Witness for C4 in `env_sentinel`. -/
theorem process_video_short_circuit_witness :
    Event.translate_call "hola" ∉
      (process_video env_sentinel "v.mp4" (some "res") true true).events ∧
    (process_video env_sentinel "v.mp4" (some "res") true true).result =
      Except.ok (some ⟨transcribe_sentinel, none, "v.mp4"⟩) :=
  ⟨(process_video_short_circuit env_sentinel "v.mp4" "/tmp/a.wav" (some "res") true true
      (by decide) rfl rfl).1 "hola",
   (process_video_short_circuit env_sentinel "v.mp4" "/tmp/a.wav" (some "res") true true
      (by decide) rfl rfl).2⟩

/-- **C7**: once extraction has succeeded (so transcription is attempted),
the temporary audio file is gone from the final filesystem and an unlink of
it appears in the event trace, whatever the transcription/translation
outcomes and flags. -/
theorem process_video_deletes_temp (env : Env) (video_path audio_path : String)
    (results_path : Option String) (save return_results : Bool)
    (hfs : video_path ∈ env.fs)
    (hex : env.extract_result = Except.ok audio_path) :
    audio_path ∉ (process_video env video_path results_path save return_results).fs ∧
    Event.delete_file audio_path ∈
      (process_video env video_path results_path save return_results).events := by
  unfold process_video
  rw [hex]
  simp only [hfs, if_true]
  by_cases hc : pyContains env.transcribe_result transcribe_marker <;>
    cases save <;> cases results_path <;> cases return_results <;>
      simp [hc, List.mem_filter, List.mem_append]

/-- Witness for C7 in `env_ok`. -/
theorem process_video_deletes_temp_witness :
    "/tmp/a.wav" ∉ (process_video env_ok "v.mp4" (some "res") true true).fs ∧
    Event.delete_file "/tmp/a.wav" ∈
      (process_video env_ok "v.mp4" (some "res") true true).events :=
  process_video_deletes_temp env_ok "v.mp4" "/tmp/a.wav" (some "res") true true
    (by decide) rfl

/-- **C8, counterexample**: a call that completes without raising — video
exists, extraction and both remote calls succeed — but is made with the
default `return_results = False` returns `None`, not the structured record,
refuting the claim as stated. -/
theorem process_video_default_returns_none :
    (process_video env_ok "v.mp4" (some "res") true false).result = Except.ok none := rfl

/-- **C8, amended**: for every call that completes without raising
(transcription not matching the failure marker) **and has
`return_results = True`**, `process_video` returns the structured record
with fields `transcription`, `translation` and `video_path`; with
`return_results = False` it returns `None`. -/
theorem process_video_returns_record (env : Env) (video_path audio_path : String)
    (results_path : Option String) (save : Bool)
    (hfs : video_path ∈ env.fs)
    (hex : env.extract_result = Except.ok audio_path)
    (hok : pyContains env.transcribe_result transcribe_marker = false) :
    (process_video env video_path results_path save true).result =
      Except.ok (some ⟨env.transcribe_result, some env.translate_result, video_path⟩) ∧
    (process_video env video_path results_path save false).result = Except.ok none := by
  constructor <;>
    · unfold process_video
      rw [hex]
      simp [hfs, hok]

/-- Witness for the amended C8 in `env_ok`. -/
theorem process_video_returns_record_witness :
    (process_video env_ok "v.mp4" (some "res") true true).result =
      Except.ok (some ⟨"hello world", some "hola mundo", "v.mp4"⟩) ∧
    (process_video env_ok "v.mp4" (some "res") true false).result = Except.ok none :=
  process_video_returns_record env_ok "v.mp4" "/tmp/a.wav" (some "res") true
    (by decide) rfl (by decide)

/-- A transcription that contains the failure marker without starting with
it (nor with `'FALLO'`, nor with the full sentinel). -/
def c9_text : String := "ok: FALLO TRANSCRIBIENDO EN CANTIDAD DE INTENTOS"

/-- Concrete environment whose transcription is `c9_text`. -/
def env_c9 : Env := ⟨["v.mp4"], Except.ok "/tmp/a.wav", c9_text, "hola mundo"⟩

/-- **C9, counterexample**: `process_video` classifies `c9_text` as a
retry-exhaustion failure (it short-circuits with `translation = none`) even
though `c9_text` starts neither with the marker `"FALLO TRANSCRIBIENDO"`,
nor with `"FALLO"`, nor with the full sentinel — so classification is not
"exactly when it starts with the failure marker string". -/
theorem classification_not_by_prefix :
    (process_video env_c9 "v.mp4" none true true).result =
      Except.ok (some ⟨c9_text, none, "v.mp4"⟩) ∧
    pyStartswith c9_text transcribe_marker = false ∧
    pyStartswith c9_text "FALLO" = false ∧
    pyStartswith c9_text transcribe_sentinel = false :=
  ⟨rfl, rfl, rfl, rfl⟩

/-- **C9, amended**: `process_video` classifies a transcription result as a
retry-exhaustion failure exactly when it **contains** the marker
`"FALLO TRANSCRIBIENDO"` as a substring (Python `in`); the batch driver
additionally tests the prefix `'FALLO'` on the returned record. -/
theorem classification_by_substring (env : Env) (video_path audio_path : String)
    (results_path : Option String) (save : Bool)
    (hfs : video_path ∈ env.fs)
    (hex : env.extract_result = Except.ok audio_path) :
    (process_video env video_path results_path save true).result =
        Except.ok (some ⟨env.transcribe_result, none, video_path⟩) ↔
      pyContains env.transcribe_result transcribe_marker = true := by
  by_cases hc : pyContains env.transcribe_result transcribe_marker <;>
    · unfold process_video
      rw [hex]
      simp [hfs, hc]

/-- Witness for the amended C9 in `env_c9`. -/
theorem classification_by_substring_witness :
    (process_video env_c9 "v.mp4" none true true).result =
      Except.ok (some ⟨c9_text, none, "v.mp4"⟩) :=
  (classification_by_substring env_c9 "v.mp4" "/tmp/a.wav" none true
    (by decide) rfl).mpr (by decide)

/-- Concrete environment in which translation exhausts its retries. -/
def env_c10 : Env := ⟨["v.mp4"], Except.ok "/tmp/a.wav", "hello world", translate_sentinel⟩

/-- **C10**: when `translate_text` comes back with its sentinel
`'FALLO TRADUCIENDO EN CANTIDAD DE INTENTOS'`, `process_video` does not
detect it: the sentinel is written as the content of the
`_translation.txt` output file, returned in the `translation` field of the
record, and the batch driver's success test still counts the video as a
success. -/
theorem translation_sentinel_undetected (env : Env) (video_path audio_path rp : String)
    (hfs : video_path ∈ env.fs)
    (hex : env.extract_result = Except.ok audio_path)
    (hok : pyContains env.transcribe_result transcribe_marker = false)
    (hsent : env.translate_result = translate_sentinel)
    (hne : env.transcribe_result ≠ "")
    (hpre : pyStartswith env.transcribe_result "FALLO" = false) :
    (process_video env video_path (some rp) true true).result =
      Except.ok (some ⟨env.transcribe_result, some translate_sentinel, video_path⟩) ∧
    Event.write_file (rp ++ "/" ++ pathStem video_path ++ "_translation.txt")
        translate_sentinel ∈ (process_video env video_path (some rp) true true).events ∧
    cli_counts_success
      (some ⟨env.transcribe_result, some translate_sentinel, video_path⟩) = true := by
  refine ⟨?_, ?_, ?_⟩
  · unfold process_video
    rw [hex]
    simp [hfs, hok, hsent]
  · unfold process_video
    rw [hex]
    simp [hfs, hok, hsent, List.mem_append]
  · simp [cli_counts_success, hne, hpre]

/-- Witness for C10 in `env_c10`. -/
theorem translation_sentinel_undetected_witness :
    (process_video env_c10 "v.mp4" (some "res") true true).result =
      Except.ok (some ⟨"hello world", some translate_sentinel, "v.mp4"⟩) ∧
    Event.write_file ("res" ++ "/" ++ pathStem "v.mp4" ++ "_translation.txt")
        translate_sentinel ∈ (process_video env_c10 "v.mp4" (some "res") true true).events ∧
    cli_counts_success (some ⟨"hello world", some translate_sentinel, "v.mp4"⟩) = true :=
  translation_sentinel_undetected env_c10 "v.mp4" "/tmp/a.wav" "res"
    (by decide) rfl (by decide) rfl (by decide) (by decide)

end VideoTranscriber
